import Mathlib

/-!
A verification development for the single-header dependency-injection
container `di::Context` (src/di.h).  The container is shallowly embedded:
the per-type registry entry `CtxItem`, the four SFINAE construction cases
of `registerClass`, the base-chain declaration `declareBaseTypes`, the
instance cache `addInstance`, and the resolution entry point `get_m` are
translated into executable Lean functions over an explicit state.  C++
recursion is bounded by an explicit fuel parameter; C++ exceptions become
an error value that is threaded together with the state (state updates
made before a throw survive it, exactly as in the source).  Strong
`std::shared_ptr` ownership is modelled by reference counts on a heap of
constructed objects, so lifetime and destruction-order statements can be
evaluated.
-/

namespace DiLight

/-- Type identity of `di::Context` itself (the `get_m<Context>` explicit
specialization at di.h:527-532 is keyed on it). -/
def ctxTid : Nat := 0

/-- The instance id standing for the container object itself (what
`shared_from_this()` returns). -/
def ctxInst : Nat := 0

/-- The compile-time capabilities of a C++ class, as probed by the SFINAE
traits in di.h: `has_dependencies_typedef` (`deps`),
`std::is_default_constructible` (`defCtor`),
`std::is_constructible<T, std::shared_ptr<Context>>` (`ctxCtor`),
`has_singleton_typedef` and its value (`singletonDecl`), and the declared
`base` typedef.  `storesCtx` records whether the class's
context-handle constructor keeps the handle as a member (behaviour of the
client class, observable through reference counts). -/
structure TypeDecl where
  name : String
  deps : Option (List Nat)
  defCtor : Bool
  ctxCtor : Bool
  storesCtx : Bool
  singletonDecl : Option Bool
  base : Option Nat
deriving Repr, DecidableEq

/-- The ambient program: what every type id declares. -/
abbrev Env := Nat → TypeDecl

/-- The construction strategy bound into a `CtxItem::factory` closure at
registration time: Case1 default-constructs, Case2 passes a container
handle, Case3 resolves the declared dependency list left to right. -/
inductive Strategy where
  | byDefault
  | byContext
  | byDeps (ds : List Nat)
deriving Repr, DecidableEq

/-- One registry entry, `Context::CtxItem` (di.h:89-127).  `inst` models
the pair storage/deleter: it is `some i` exactly when the deleter is
non-null and the aligned storage holds a strong `shared_ptr` to instance
`i`.  `derivedType` is `none` for `typeid(void)`. -/
structure CtxItem where
  marker : Bool
  singleton : Bool
  factory : Option Strategy
  inst : Option Nat
  derivedType : Option Nat
deriving Repr, DecidableEq

/-- A default-initialised `CtxItem`, what `items[idx]` creates on a miss. -/
def CtxItem.empty : CtxItem :=
  { marker := false, singleton := false, factory := none, inst := none, derivedType := none }

/-- A constructed object: its dynamic type, the strong handles it stores
as members (its resolved dependencies, in declaration order), and the
number of strong references currently held on it. -/
structure Obj where
  tid : Nat
  members : List Nat
  rc : Nat
deriving Repr, DecidableEq

/-- The whole mutable world: the registry map `items` (association list
keyed by type id, insertion ordered), the heap of constructed objects
keyed by instance id, the reference count on the container itself, a
fresh-id counter, and construction/destruction logs (type ids, in event
order). -/
structure St where
  items : List (Nat × CtxItem)
  heap : List (Nat × Obj)
  ctxRc : Nat
  nextInst : Nat
  conLog : List Nat
  desLog : List Nat
deriving Repr, DecidableEq

/-- The state of a freshly constructed container nobody references yet. -/
def St.empty : St :=
  { items := [], heap := [], ctxRc := 0, nextInst := 1, conLog := [], desLog := [] }

/-- Association-list lookup. -/
def lookupA {α : Type} (l : List (Nat × α)) (k : Nat) : Option α :=
  match l with
  | [] => none
  | kv :: rest => if kv.1 = k then some kv.2 else lookupA rest k

/-- Association-list update; appends when the key is absent (the model of
`std::map::operator[]` insertion). -/
def setA {α : Type} (l : List (Nat × α)) (k : Nat) (v : α) : List (Nat × α) :=
  match l with
  | [] => [(k, v)]
  | kv :: rest => if kv.1 = k then (k, v) :: rest else kv :: setA rest k v

/-- Association-list removal of one key. -/
def removeA {α : Type} (l : List (Nat × α)) (k : Nat) : List (Nat × α) :=
  match l with
  | [] => []
  | kv :: rest => if kv.1 = k then rest else kv :: removeA rest k

def St.getItem (st : St) (t : Nat) : Option CtxItem :=
  lookupA st.items t

def St.setItem (st : St) (t : Nat) (it : CtxItem) : St :=
  { st with items := setA st.items t it }

def St.getObj (st : St) (i : Nat) : Option Obj :=
  lookupA st.heap i

def St.setObj (st : St) (i : Nat) (o : Obj) : St :=
  { st with heap := setA st.heap i o }

/-- Taking one more strong reference on instance `i` (copying a
`shared_ptr`).  Instance 0 is the container itself. -/
def incRef (st : St) (i : Nat) : St :=
  if i = ctxInst then { st with ctxRc := st.ctxRc + 1 }
  else
    match st.getObj i with
    | some o => st.setObj i { o with rc := o.rc + 1 }
    | none => st

/-- The run-time failures the container can raise (`std::runtime_error`
throws in di.h), plus the two static failure modes of registration
(`ambiguousOverload`: Cases 1-3 of `registerClass` are not mutually
exclusive, so a type satisfying two of the enabling conditions makes the
call ill-formed; `strictStaticAssert`: Case4b), plus bookkeeping outcomes
of the model itself (`badFunctionCall`: invoking an empty `std::function`;
`undefinedBehavior`: dereferencing `items.end()`; `outOfFuel`). -/
inductive DiError where
  | cyclicDependency (msg : String)
  | unknownConstruction (msg : String)
  | duplicateFactory (msg : String)
  | instanceAlready (msg : String)
  | ambiguousOverload
  | strictStaticAssert
  | badFunctionCall
  | undefinedBehavior
  | outOfFuel
deriving Repr, DecidableEq

/-- Fuel for walking a declared base chain.  `declareBaseTypes` is
template recursion in C++: a base chain is necessarily finite in any
program that compiles, so any bound larger than the chain is faithful. -/
def baseFuel : Nat := 1000

/-- One step of the base-chain walk: set the ancestor's `derivedType`
and continue with its own declared base. -/
def declareStep (env : Env) (recur : Option Nat → Nat → St → St)
    (b : Option Nat) (derived : Nat) (st : St) : St :=
  match b with
  | none => st
  | some bb =>
    let it := (st.getItem bb).getD CtxItem.empty
    let st1 := st.setItem bb { it with derivedType := some derived }
    recur (env bb).base derived st1

/-- `Context::declareBaseTypes` (di.h:155-163): walk the `base` typedef
chain and point every ancestor's entry (created on demand by
`items[...]`) at the terminal derived type. -/
def declareBaseTypes (env : Env) (fuel : Nat) : Option Nat → Nat → St → St :=
  Nat.rec (motive := fun _ => Option Nat → Nat → St → St)
    (fun _ _ st => st)
    (fun _ ih => declareStep env ih)
    fuel

/-- Which of the three constructing `registerClass` overloads are
viable for a declaration: Case1 is enabled by
`std::is_default_constructible<T>`, Case2 by
`std::is_constructible<T, std::shared_ptr<Context>>`, Case3 by
`detail::has_dependencies_typedef<T>` (di.h:324, 344, 364).  The
conditions are checked independently, so the list can hold more than one
case. -/
def enabledCases (d : TypeDecl) : List Nat :=
  (if d.defCtor then [1] else []) ++
    (if d.ctxCtor then [2] else []) ++
      (if d.deps.isSome then [3] else [])

/-- The factory closure built by the selected `registerClass` overload. -/
def strategyOfCase (d : TypeDecl) (c : Nat) : Strategy :=
  if c = 1 then Strategy.byDefault
  else if c = 2 then Strategy.byContext
  else Strategy.byDeps (d.deps.getD [])

/-- `isSingletonScope<T>()` (di.h:266-276): the declared `singleton`
typedef's value, defaulting to `true` when the typedef is absent. -/
def isSingletonScope (d : TypeDecl) : Bool :=
  d.singletonDecl.getD true

/-- `Context::registerClass<T, Strict>` (di.h:324-394).  When no overload
is enabled, Case4 dispatches to `handleUnknownConstruction` (a
`static_assert` when `Strict`, a `std::runtime_error` naming the type
otherwise) without touching the registry.  When exactly one overload is
enabled it declares the base chain, then creates the entry, rejects a
duplicate factory, and installs the factory and the scope flag.  When two
or more overloads are enabled the call is ambiguous (the enabling
conditions are not mutually exclusive and no overload is more
specialized), which the model reports as `ambiguousOverload`. -/
def registerClass (env : Env) (strict : Bool) (t : Nat) (st : St) :
    Except DiError Unit × St :=
  let d := env t
  match enabledCases d with
  | [] =>
    if strict then (Except.error DiError.strictStaticAssert, st)
    else
      (Except.error (DiError.unknownConstruction
        ("Don't know how to instantiate '" ++ d.name ++ "' or any of its derived types!")), st)
  | [c] =>
    let st1 := declareBaseTypes env baseFuel d.base t st
    let it := (st1.getItem t).getD CtxItem.empty
    if it.factory.isSome then
      (Except.error (DiError.duplicateFactory
        ("Factory already registed for type: " ++ d.name)), st1)
    else
      (Except.ok (),
        st1.setItem t { it with factory := some (strategyOfCase d c),
                                singleton := isSingletonScope d })
  | _ => (Except.error DiError.ambiguousOverload, st)

/-- `make_shared<T>(members...)`: allocate a fresh instance that stores a
strong handle to each resolved dependency (in resolution order, which is
the member declaration order of the client classes modelled here), and
log the construction. -/
def makeShared (st : St) (t : Nat) (members : List Nat) : Nat × St :=
  let i := st.nextInst
  let st1 := members.foldl incRef st
  (i, { st1 with heap := st1.heap ++ [(i, { tid := t, members := members, rc := 0 })],
                 nextInst := i + 1,
                 conLog := st1.conLog ++ [t] })

/-- `Context::addInstance` (di.h:234-258): reject when the entry already
holds an instance (`deleter != nullptr`), otherwise placement-new a
strong `shared_ptr` copy into the entry's storage — the container itself
takes one owning reference. -/
def addInstance (env : Env) (t : Nat) (i : Nat) (st : St) :
    Except DiError Unit × St :=
  let it := (st.getItem t).getD CtxItem.empty
  if it.inst.isSome then
    (Except.error (DiError.instanceAlready
      ("Instance already in Context for type: " ++ (env t).name)), st)
  else
    (Except.ok (), incRef (st.setItem t { it with inst := some i }) i)

/-- The requests the interpreter can process: resolve one type, or
resolve a dependency list left to right. -/
inductive Call where
  | get (t : Nat)
  | deps (ds : List Nat)
deriving Repr, DecidableEq

/-- Run the factory stored in an entry (the closures built at di.h:337,
357, 410).  An absent factory is an empty `std::function` call.  Case2's
closure first calls `get_m<Context>()`; whether the constructed object
keeps the handle is the class's own behaviour (`storesCtx`).  Case3's
closure resolves the dependency list and the object stores every
resolved handle. -/
def runFactory (env : Env)
    (recur : Call → St → Except DiError (List Nat) × St)
    (k : Nat) (strat : Option Strategy) (st : St) :
    Except DiError Unit × St :=
  match strat with
  | none => (Except.error DiError.badFunctionCall, st)
  | some Strategy.byDefault =>
    let p := makeShared st k []
    addInstance env k p.1 p.2
  | some Strategy.byContext =>
    match recur (Call.get ctxTid) st with
    | (Except.error e, st1) => (Except.error e, st1)
    | (Except.ok js, st1) =>
      let ms := if (env k).storesCtx then js else []
      let p := makeShared st1 k ms
      addInstance env k p.1 p.2
  | some (Strategy.byDeps ds) =>
    match recur (Call.deps ds) st with
    | (Except.error e, st1) => (Except.error e, st1)
    | (Except.ok is, st1) =>
      let p := makeShared st1 k is
      addInstance env k p.1 p.2

/-- The body of `get_m` shared by all entry paths (di.h:449-466), acting
on the entry under key `k` while `t` is the originally requested type
(whose `typeid` name appears in the cycle diagnostic).  A live stored
instance is returned with no factory call and no cycle check; otherwise a
set marker raises `CyclicDependency`; otherwise the marker is set, the
factory runs (an error escapes with the marker still set, exactly as the
unguarded `item.factory()` call lets an exception pass the
`item.marker = false` line), the marker is cleared and the freshly
stored instance is returned. -/
def itemCommon (env : Env)
    (recur : Call → St → Except DiError (List Nat) × St)
    (t k : Nat) (st : St) : Except DiError (List Nat) × St :=
  match st.getItem k with
  | none => (Except.error DiError.undefinedBehavior, st)
  | some it =>
    match it.inst with
    | some i => (Except.ok [i], st)
    | none =>
      if it.marker then
        (Except.error (DiError.cyclicDependency
          ("Cyclic dependecy while instantiating type: " ++ (env t).name)), st)
      else
        let st1 := st.setItem k { it with marker := true }
        match runFactory env recur k it.factory st1 with
        | (Except.error e, st2) => (Except.error e, st2)
        | (Except.ok _, st2) =>
          match st2.getItem k with
          | none => (Except.error DiError.undefinedBehavior, st2)
          | some it2 =>
            let st3 := st2.setItem k { it2 with marker := false }
            match it2.inst with
            | some i => (Except.ok [i], st3)
            | none => (Except.error DiError.undefinedBehavior, st3)

/-- `Context::get_m<T>` (di.h:427-466) for one request: the explicit
`Context` specialization returns `shared_from_this()` untouched; a miss
registers the type non-strictly and proceeds on the fresh entry; a hit
whose entry has no factory but a derived type redirects to the derived
entry (`items.find` past the end is undefined behaviour). -/
def getEntry (env : Env)
    (recur : Call → St → Except DiError (List Nat) × St)
    (t : Nat) (st : St) : Except DiError (List Nat) × St :=
  if t = ctxTid then (Except.ok [ctxInst], st)
  else
    match st.getItem t with
    | none =>
      match registerClass env false t st with
      | (Except.error e, st1) => (Except.error e, st1)
      | (Except.ok _, st1) => itemCommon env recur t t st1
    | some it =>
      if it.factory.isNone && it.derivedType.isSome then
        itemCommon env recur t (it.derivedType.getD 0) st
      else
        itemCommon env recur t t st

/-- One interpreter step: dependency lists resolve left to right through
recursive `get_m` calls, single requests go through `getEntry`. -/
def bodyStep (env : Env)
    (recur : Call → St → Except DiError (List Nat) × St) :
    Call → St → Except DiError (List Nat) × St
  | Call.deps [], st => (Except.ok [], st)
  | Call.deps (d :: rest), st =>
    match recur (Call.get d) st with
    | (Except.error e, st1) => (Except.error e, st1)
    | (Except.ok is, st1) =>
      match recur (Call.deps rest) st1 with
      | (Except.error e, st2) => (Except.error e, st2)
      | (Except.ok js, st2) => (Except.ok (is ++ js), st2)
  | Call.get t, st => getEntry env recur t st

/-- The fuelled interpreter: each nested resolution consumes one unit of
fuel, so the C++ call stack of depth `n` is reproduced by any fuel above
`n`. -/
def run (env : Env) (fuel : Nat) : Call → St → Except DiError (List Nat) × St :=
  Nat.rec (motive := fun _ => Call → St → Except DiError (List Nat) × St)
    (fun _ st => (Except.error DiError.outOfFuel, st))
    (fun _ ih => bodyStep env ih)
    fuel

/-- `get_m<T>()` as the caller sees it: a strong handle (instance id) or
an error, together with the mutated container state. -/
def get_m (env : Env) (fuel t : Nat) (st : St) : Except DiError Nat × St :=
  match run env fuel (Call.get t) st with
  | (Except.ok is, st1) => (Except.ok (is.headD 0), st1)
  | (Except.error e, st1) => (Except.error e, st1)

/-- The Case3 factory is `make_shared<T>( get_m<Dep>()... )` (di.h:410):
a parenthesized function call, so C++ leaves the evaluation order of the
sibling `get_m` arguments unspecified — `bodyStep` realises the
left-to-right schedule, this variant realises the right-to-left schedule
(the one GCC produces).  Either way the resolved handles are passed
positionally, so the object's member list stays in declared order. -/
def bodyStepRtl (env : Env)
    (recur : Call → St → Except DiError (List Nat) × St) :
    Call → St → Except DiError (List Nat) × St
  | Call.deps [], st => (Except.ok [], st)
  | Call.deps (d :: rest), st =>
    match recur (Call.deps rest) st with
    | (Except.error e, st1) => (Except.error e, st1)
    | (Except.ok js, st1) =>
      match recur (Call.get d) st1 with
      | (Except.error e, st2) => (Except.error e, st2)
      | (Except.ok is, st2) => (Except.ok (is ++ js), st2)
  | Call.get t, st => getEntry env recur t st

/-- The interpreter under the right-to-left sibling evaluation
schedule. -/
def runRtl (env : Env) (fuel : Nat) : Call → St → Except DiError (List Nat) × St :=
  Nat.rec (motive := fun _ => Call → St → Except DiError (List Nat) × St)
    (fun _ st => (Except.error DiError.outOfFuel, st))
    (fun _ ih => bodyStepRtl env ih)
    fuel

/-- `get_m<T>()` under the right-to-left sibling evaluation schedule. -/
def get_mRtl (env : Env) (fuel t : Nat) (st : St) : Except DiError Nat × St :=
  match runRtl env fuel (Call.get t) st with
  | (Except.ok is, st1) => (Except.ok (is.headD 0), st1)
  | (Except.error e, st1) => (Except.error e, st1)

/-- One step of dropping a strong reference to instance `i` (a
`shared_ptr` destructor).  When the last reference to an object dies its
destructor runs: the destruction is logged and the member handles are
released in reverse declaration order (C++ destroys members in reverse).
When the last reference to the container dies, `~Context` destroys the
`items` map; every `CtxItem` destructor runs its deleter, releasing the
stored strong handle. -/
def releaseStep (recur : Nat → St → St) (i : Nat) (st : St) : St :=
  if i = ctxInst then
    if st.ctxRc ≤ 1 then
      (st.items.filterMap (fun p => p.2.inst)).foldl
        (fun s j => recur j s)
        { st with items := [], ctxRc := 0 }
    else { st with ctxRc := st.ctxRc - 1 }
  else
    match st.getObj i with
    | none => st
    | some o =>
      if o.rc ≤ 1 then
        (o.members.reverse).foldl (fun s m => recur m s)
          { st with heap := removeA st.heap i, desLog := st.desLog ++ [o.tid] }
      else st.setObj i { o with rc := o.rc - 1 }

/-- Dropping one strong reference, with fuel bounding the destruction
cascade's depth. -/
def releaseInst (fuel : Nat) : Nat → St → St :=
  Nat.rec (motive := fun _ => Nat → St → St)
    (fun _ st => st)
    (fun _ ih => releaseStep ih)
    fuel

/-- Release a sequence of strong references one by one. -/
def releaseSeq (fuel : Nat) (order : List Nat) (st : St) : St :=
  order.foldl (fun s i => releaseInst fuel i s) st

/-- `Context::create<T>` (di.h:482-489): make a fresh container (one
local strong handle), resolve `T`, hand the result to the caller (one
more strong reference), and let the local container handle die at the end
of the call. -/
def create (env : Env) (fuel t : Nat) : Except DiError Nat × St :=
  let st0 : St := { St.empty with ctxRc := 1 }
  match run env fuel (Call.get t) st0 with
  | (Except.ok is, st1) =>
    let i := is.headD 0
    (Except.ok i, releaseInst fuel ctxInst (incRef st1 i))
  | (Except.error e, st1) => (Except.error e, releaseInst fuel ctxInst st1)

/-! ## Concrete programs

The client declarations below transcribe the classes of src/test.cpp that
the claims cite.  Type ids: within each environment the `match` gives the
mapping; type id 0 is always `di::Context` itself. -/

/-- Test set 1 (test.cpp:17-48): `T1_A` (id 1) lists dependencies
`(T1_B, T1_C)`, `T1_B` (id 2) lists `(T1_D)`, `T1_C` (id 3) and `T1_D`
(id 4) are default constructible; every class stores its dependencies as
members in list order and none declares a scope or a base. -/
def envT1 : Env := fun t =>
  match t with
  | 1 => { name := "T1_A", deps := some [2, 3], defCtor := false, ctxCtor := false,
           storesCtx := false, singletonDecl := none, base := none }
  | 2 => { name := "T1_B", deps := some [4], defCtor := false, ctxCtor := false,
           storesCtx := false, singletonDecl := none, base := none }
  | 3 => { name := "T1_C", deps := none, defCtor := true, ctxCtor := false,
           storesCtx := false, singletonDecl := none, base := none }
  | 4 => { name := "T1_D", deps := none, defCtor := true, ctxCtor := false,
           storesCtx := false, singletonDecl := none, base := none }
  | _ => { name := "void", deps := none, defCtor := false, ctxCtor := false,
           storesCtx := false, singletonDecl := none, base := none }

/-- Test set 7 (test.cpp:189-201): the mutually dependent pair `T7_A`
(id 1, depends on `T7_B`) and `T7_B` (id 2, depends on `T7_A`). -/
def envT7 : Env := fun t =>
  match t with
  | 1 => { name := "T7_A", deps := some [2], defCtor := false, ctxCtor := false,
           storesCtx := false, singletonDecl := none, base := none }
  | 2 => { name := "T7_B", deps := some [1], defCtor := false, ctxCtor := false,
           storesCtx := false, singletonDecl := none, base := none }
  | _ => { name := "void", deps := none, defCtor := false, ctxCtor := false,
           storesCtx := false, singletonDecl := none, base := none }

/-- Test set 5 (test.cpp:149-165): the declared chain `T5` (id 1) ←
`T5_d` (id 2, `base = T5`) ← `T5_dd` (id 3, `base = T5_d`); all three are
default constructible. -/
def envT5 : Env := fun t =>
  match t with
  | 1 => { name := "T5", deps := none, defCtor := true, ctxCtor := false,
           storesCtx := false, singletonDecl := none, base := none }
  | 2 => { name := "T5_d", deps := none, defCtor := true, ctxCtor := false,
           storesCtx := false, singletonDecl := none, base := some 1 }
  | 3 => { name := "T5_dd", deps := none, defCtor := true, ctxCtor := false,
           storesCtx := false, singletonDecl := none, base := some 2 }
  | _ => { name := "void", deps := none, defCtor := false, ctxCtor := false,
           storesCtx := false, singletonDecl := none, base := none }

/-- Test set 8 (test.cpp:209-222): `T8_A` (id 1) declares no scope
(implicitly singleton), `T8_B` (id 2) declares `singleton = true_type`,
`T8_C` (id 3) declares `singleton = false_type` (prototype); all are
default constructible. -/
def envT8 : Env := fun t =>
  match t with
  | 1 => { name := "T8_A", deps := none, defCtor := true, ctxCtor := false,
           storesCtx := false, singletonDecl := none, base := none }
  | 2 => { name := "T8_B", deps := none, defCtor := true, ctxCtor := false,
           storesCtx := false, singletonDecl := some true, base := none }
  | 3 => { name := "T8_C", deps := none, defCtor := true, ctxCtor := false,
           storesCtx := false, singletonDecl := some false, base := none }
  | _ => { name := "void", deps := none, defCtor := false, ctxCtor := false,
           storesCtx := false, singletonDecl := none, base := none }

/-- Test set 9 (test.cpp:233-235): `T9_A` (id 1) declares an empty
dependency tuple and, having no other constructors, is also default
constructible — it satisfies the enabling conditions of both Case1 and
Case3 of `registerClass`. -/
def envT9 : Env := fun t =>
  match t with
  | 1 => { name := "T9_A", deps := some [], defCtor := true, ctxCtor := false,
           storesCtx := false, singletonDecl := none, base := none }
  | _ => { name := "void", deps := none, defCtor := false, ctxCtor := false,
           storesCtx := false, singletonDecl := none, base := none }

/-- Test set Z (test.cpp:267-269): `Z2` (id 1) has only a constructor
from `int`: it is not default constructible, not context constructible,
declares no dependency list and no base — no construction strategy
matches. -/
def envU : Env := fun t =>
  match t with
  | 1 => { name := "Z2", deps := none, defCtor := false, ctxCtor := false,
           storesCtx := false, singletonDecl := none, base := none }
  | _ => { name := "void", deps := none, defCtor := false, ctxCtor := false,
           storesCtx := false, singletonDecl := none, base := none }

/-- Test set 10 (test.cpp:248-253): `T10` (id 1) is constructible from a
container handle and stores it as a member; id 2 is a plain
default-constructible class that does not touch the container. -/
def envT10 : Env := fun t =>
  match t with
  | 1 => { name := "T10", deps := none, defCtor := false, ctxCtor := true,
           storesCtx := true, singletonDecl := none, base := none }
  | 2 => { name := "T8_A", deps := none, defCtor := true, ctxCtor := false,
           storesCtx := false, singletonDecl := none, base := none }
  | _ => { name := "void", deps := none, defCtor := false, ctxCtor := false,
           storesCtx := false, singletonDecl := none, base := none }

/-- A fresh container on which the caller holds one strong handle
(`di::Context::create<di::Context>()` hands exactly this out). -/
def stC : St := { St.empty with ctxRc := 1 }

/-- Resolving `T1_A` in a fresh container (fuel 30 far exceeds the call
depth). -/
def resT1 : Except DiError Nat × St := get_m envT1 30 1 stC

/-- All 24 orders in which the dying container could release its four
stored handles (the iteration order of a `std::map` over
`std::type_index` is unspecified, so the destruction claim is checked
under every order). -/
def teardownOrders : List (List Nat) :=
  [[4, 2, 1, 3], [2, 4, 1, 3], [1, 2, 4, 3], [2, 1, 4, 3], [1, 4, 2, 3], [4, 1, 2, 3],
   [3, 1, 2, 4], [1, 3, 2, 4], [1, 2, 3, 4], [3, 2, 1, 4], [2, 3, 1, 4], [2, 1, 3, 4],
   [3, 4, 2, 1], [4, 3, 2, 1], [4, 2, 3, 1], [3, 2, 4, 1], [2, 3, 4, 1], [2, 4, 3, 1],
   [3, 4, 1, 2], [4, 3, 1, 2], [4, 1, 3, 2], [3, 1, 4, 2], [1, 3, 4, 2], [1, 4, 3, 2]]

/-- After resolving `T1_A`: the caller binds the returned handle
(instance 4) and the container is destructed — every `CtxItem` releases
its stored strong handle, here in registry order. -/
def afterCtxGone : St := releaseInst 30 ctxInst (incRef resT1.2 4)

/-- ... and then the caller releases the last handle of the graph. -/
def graphGone : St := releaseInst 30 4 afterCtxGone

/-- Resolving `T1_A` in a fresh container when the compiler evaluates
sibling constructor arguments right to left. -/
def resT1R : Except DiError Nat × St := get_mRtl envT1 30 1 stC

/-- The right-to-left run after the caller binds the returned handle
(still instance 4) and the container is destructed. -/
def afterCtxGoneR : St := releaseInst 30 ctxInst (incRef resT1R.2 4)

/-- ... and then the caller releases the last handle of that graph. -/
def graphGoneR : St := releaseInst 30 4 afterCtxGoneR

/-- Resolving the cyclic `T7_A` in a fresh container. -/
def resT7 : Except DiError Nat × St := get_m envT7 30 1 stC

/-- Resolving the terminal derived type `T5_dd` in a fresh container. -/
def resT5 : Except DiError Nat × St := get_m envT5 30 3 stC

/-- Resolving the implicit singleton `T8_A` in a fresh container. -/
def resT8A : Except DiError Nat × St := get_m envT8 30 1 stC

/-- Resolving the explicit singleton `T8_B` in a fresh container. -/
def resT8B : Except DiError Nat × St := get_m envT8 30 2 stC

/-- Resolving the declared prototype `T8_C` in a fresh container. -/
def resT8C : Except DiError Nat × St := get_m envT8 30 3 stC

/-- `di::Context::create<T10>()`. -/
def resT10 : Except DiError Nat × St := create envT10 30 1

/-- `di::Context::create` of the plain class that ignores the
container. -/
def resPlain : Except DiError Nat × St := create envT10 30 2

/-- After resolving `T8_A`, the caller first stores the returned handle
and then drops it again while the container stays alive. -/
def c1dropped : St := releaseInst 30 1 (incRef resT8A.2 1)

/-! ## Claims -/

/-- Claim C1, evaluated on the code: after the first construction of the
singleton `T8_A`, dropping the only caller-held strong handle while the
container is alive leaves the instance alive — its `CtxItem` storage
still owns one strong reference (`rc = 1`), no destructor has run — and
a subsequent resolve returns that same instance with no error.  This is
the opposite of the claimed weak observation, immediate destruction and
`InstanceReclaimedByCaller` failure: `addInstance` (di.h:234-258)
placement-news an owning `std::shared_ptr` copy into the entry. -/
theorem c1_container_retains_strong_ownership :
    resT8A.1 = Except.ok 1 ∧
    c1dropped.getObj 1 = some { tid := 1, members := [], rc := 1 } ∧
    c1dropped.desLog = [] ∧
    get_m envT8 30 1 c1dropped = (Except.ok 1, c1dropped) :=
  ⟨rfl, rfl, rfl, rfl⟩

/-- Claim C2, evaluated on the code: `T8_C` declares `singleton =
false_type` and the registry records the flag as `false`, yet the second
resolve returns the cached first instance unchanged (the state is
untouched and the construction log still holds a single entry), because
`get_m` (di.h:452) gates construction only on `deleter == nullptr` and
never consults the `singleton` flag. -/
theorem c2_prototype_scope_still_cached :
    resT8C.1 = Except.ok 1 ∧
    (resT8C.2.getItem 3).map (fun it => it.singleton) = some false ∧
    get_m envT8 30 3 resT8C.2 = (Except.ok 1, resT8C.2) ∧
    resT8C.2.conLog = [3] :=
  ⟨rfl, rfl, rfl, rfl⟩

/-- Claim C3 as stated is false on the code: resolving `T7_A` fails with
`CyclicDependency`, and after that failed top-level resolution the
`marker` of `T7_A`'s entry is still `true` — the `item.marker = false`
line (di.h:459) is skipped when `item.factory()` throws. -/
theorem c3_marker_left_set_after_failure :
    resT7.1 = Except.error (DiError.cyclicDependency
      "Cyclic dependecy while instantiating type: T7_A") ∧
    (resT7.2.getItem 1).map (fun it => it.marker) = some true :=
  ⟨rfl, rfl⟩

/-- Claim C3 amended: the marker is set immediately before the factory
runs and cleared only when the factory returns normally; after a
successful top-level resolution every entry's marker is `false`, but
after a failed resolution the markers of the entries whose factories
were unwound remain `true`, and a retry of the same type then fails with
`CyclicDependency`. -/
theorem c3_marker_cleared_only_on_success :
    resT1.2.items.all (fun p => !p.2.marker) = true ∧
    (resT7.2.getItem 1).map (fun it => it.marker) = some true ∧
    (resT7.2.getItem 2).map (fun it => it.marker) = some true ∧
    (get_m envT7 30 1 resT7.2).1 = Except.error (DiError.cyclicDependency
      "Cyclic dependecy while instantiating type: T7_A") :=
  ⟨rfl, rfl, rfl, rfl⟩

/-- Claim C4, evaluated on the code: for `T9_A` — default constructible
and declaring a dependency list — the enabling conditions of Case1 and
Case3 of `registerClass` (di.h:324, 364) hold simultaneously; neither
overload is more specialized, so no single strategy is selected (the
call is ambiguous) instead of the dependency-list strategy winning. -/
theorem c4_overlapping_cases_ambiguous :
    enabledCases (envT9 1) = [1, 3] ∧
    get_m envT9 30 1 stC = (Except.error DiError.ambiguousOverload, stC) :=
  ⟨rfl, rfl⟩

/-- Claim C5: for every sufficient fuel (i.e. for an unbounded C++ call
stack), resolving `T7_A` of the mutually dependent pair terminates with
the `CyclicDependency` error, raised when the nested resolution reaches
`T7_A` again while its marker is set (di.h:454-455). -/
theorem c5_mutual_cycle_fails_cyclic_dependency :
    ∀ f : Nat, (run envT7 (f + 5) (Call.get 1) stC).1 =
      Except.error (DiError.cyclicDependency
        "Cyclic dependecy while instantiating type: T7_A") :=
  fun _ => rfl

/-- Claim C6: after resolving the terminal derived `T5_dd` (instance 1),
both declared ancestors' entries point at it (`derivedType = T5_dd`),
and resolving either ancestor returns the very same instance with the
state untouched — `get_m` redirects an entry with no factory but a
derived type (di.h:445-446) before any cache check. -/
theorem c6_ancestor_resolution_shares_instance :
    resT5.1 = Except.ok 1 ∧
    (resT5.2.getItem 1).map (fun it => it.derivedType) = some (some 3) ∧
    (resT5.2.getItem 2).map (fun it => it.derivedType) = some (some 3) ∧
    get_m envT5 30 1 resT5.2 = (Except.ok 1, resT5.2) ∧
    get_m envT5 30 2 resT5.2 = (Except.ok 1, resT5.2) :=
  ⟨rfl, rfl, rfl, rfl, rfl⟩

/-- Claim C7: for the implicitly singleton `T8_A` and the explicitly
declared singleton `T8_B`, a second resolution in the same container
returns the identical instance and leaves the state — in particular the
construction log — unchanged, so no factory is invoked again. -/
theorem c7_singleton_resolution_idempotent :
    resT8A.1 = Except.ok 1 ∧
    get_m envT8 30 1 resT8A.2 = (Except.ok 1, resT8A.2) ∧
    resT8A.2.conLog = [1] ∧
    resT8B.1 = Except.ok 1 ∧
    get_m envT8 30 2 resT8B.2 = (Except.ok 1, resT8B.2) ∧
    resT8B.2.conLog = [2] :=
  ⟨rfl, rfl, rfl, rfl, rfl, rfl⟩

/-- Claim C8 as stated is false on the code: the construction order
`T1_D, T1_B, T1_C, T1_A` is not guaranteed, because the Case3 factory
`make_shared<T1_A>( get_m<T1_B>(), get_m<T1_C>() )` (di.h:410) evaluates
its sibling arguments in an unspecified order.  Under the right-to-left
schedule — the one the C++ standard equally permits and GCC produces —
building `T1_A` succeeds but constructs `T1_C`, `T1_D`, `T1_B`, `T1_A`
(type ids 3, 4, 2, 1), not the claimed `T1_D, T1_B, T1_C, T1_A`
(ids 4, 2, 3, 1), which is therefore also not the exact reverse of the
destruction order. -/
theorem c8_construction_order_not_guaranteed :
    resT1R.1 = Except.ok 4 ∧
    resT1R.2.conLog = [3, 4, 2, 1] ∧
    resT1R.2.conLog ≠ [4, 2, 3, 1] ∧
    graphGoneR.desLog = [1, 3, 2, 4] :=
  ⟨rfl, rfl, by decide, rfl⟩

/-- Claim C8 amended: building `T1_A` constructs dependencies before
dependents, with the relative order of the sibling dependencies left
unspecified by the code — the left-to-right argument schedule constructs
`T1_D, T1_B, T1_C, T1_A` (type ids 4, 2, 3, 1), the right-to-left one
`T1_C, T1_D, T1_B, T1_A` (ids 3, 4, 2, 1).  Under either schedule,
destroying the container destructs nothing (every object is still held
by its dependent or by the caller), and releasing the caller's last
handle then destructs `T1_A, T1_C, T1_B, T1_D` (ids 1, 3, 2, 4) — the
reverse of member declaration order, not of construction order —
emptying the heap.  The final conjuncts repeat both destruction runs
over all 24 orders in which the dying container could release its four
stored handles, since the iteration order of the `std::map` over
`std::type_index` is unspecified: `teardownOrders` holds 24 distinct
lists, each a rearrangement of the four handles, so it is exactly the
set of permutations. -/
theorem c8_destruction_reverses_declaration_order :
    resT1.1 = Except.ok 4 ∧
    resT1.2.conLog = [4, 2, 3, 1] ∧
    afterCtxGone.desLog = [] ∧
    graphGone.desLog = [1, 3, 2, 4] ∧
    graphGone.heap = [] ∧
    resT1R.1 = Except.ok 4 ∧
    resT1R.2.conLog = [3, 4, 2, 1] ∧
    afterCtxGoneR.desLog = [] ∧
    graphGoneR.desLog = [1, 3, 2, 4] ∧
    graphGoneR.heap = [] ∧
    teardownOrders.length = 24 ∧
    teardownOrders.Nodup ∧
    teardownOrders.all
      (fun p => p.isPerm [4, 2, 1, 3] &&
        ((releaseInst 30 4 (releaseSeq 30 p (incRef resT1.2 4))).desLog
          == [1, 3, 2, 4])) = true ∧
    teardownOrders.all
      (fun p => p.isPerm [4, 2, 1, 3] &&
        ((releaseInst 30 4 (releaseSeq 30 p (incRef resT1R.2 4))).desLog
          == [1, 3, 2, 4])) = true :=
  ⟨rfl, rfl, rfl, rfl, rfl, rfl, rfl, rfl, rfl, rfl, rfl, by decide, by decide, by decide⟩

/-- Claim C9: resolving `Z2`, which matches none of the construction
strategies and was never registered, fails at that `get_m` call with the
runtime error of Case4a (di.h:382-386), leaving the container state
untouched; the diagnostic message is non-empty and embeds the type's
name. -/
theorem c9_unknown_strategy_runtime_error :
    get_m envU 30 1 stC =
      (Except.error (DiError.unknownConstruction
        ("Don't know how to instantiate '" ++ (envU 1).name ++ "' or any of its derived types!")), stC) ∧
    (envU 1).name = "Z2" ∧
    ("Don't know how to instantiate '" ++ (envU 1).name ++ "' or any of its derived types!") ≠ "" :=
  ⟨rfl, rfl, by decide⟩

/-- Claim C10: in every environment and every state, resolving the
container type itself returns the container's own handle and changes
nothing — no registry entry, no factory, no marker (the explicit
specialization, di.h:527-532).  Concretely, `create<T10>` (whose class
stores the handle) succeeds with no cycle error, never creates an entry
for `Context`, and the container survives the call held once by the
constructed object (`ctxRc = 1`, the object's member list is the
container handle); `create` of the class that ignores the container
leaves the container destructed (`ctxRc = 0`, its registry torn down). -/
theorem c10_context_resolves_to_itself :
    (∀ (env : Env) (f : Nat) (st : St),
      run env (f + 1) (Call.get ctxTid) st = (Except.ok [ctxInst], st)) ∧
    resT10.1 = Except.ok 1 ∧
    resT10.2.getItem ctxTid = none ∧
    resT10.2.ctxRc = 1 ∧
    resT10.2.getObj 1 = some { tid := 1, members := [ctxInst], rc := 2 } ∧
    resPlain.1 = Except.ok 1 ∧
    resPlain.2.ctxRc = 0 ∧
    resPlain.2.items = [] :=
  ⟨fun _ _ _ => rfl, rfl, rfl, rfl, rfl, rfl, rfl, rfl⟩

end DiLight
